import Mathlib

/-!
Verification of the apartment-hunter service layer against its specification.

The repository is a TypeScript/Prisma REST backend.  The definitions below are a
shallow embedding of its service functions: the Prisma tables become lists of
records, each service function becomes an explicit state-passing function
returning either a result or a classified error, and the Cloudinary object store
becomes a list of stored public ids.  JavaScript truthiness guards that the
source uses when assembling Prisma where-clauses are modelled explicitly.
-/

namespace ApartmentHunter

/-! Error taxonomy, from src/utils/customErrors.ts. -/

inductive Err where
  | notFoundError (msg : String)
  | forbiddenError (msg : String)
  | validationError (msg : String)
  | authError (msg : String)
deriving Repr, DecidableEq

/-! Closed enums from the Prisma schema. -/

inductive PropertyType where
  | apartment | house | maisonette | bungalow | other
deriving Repr, DecidableEq

inductive PropertyStatus where
  | saved | interested | viewed | applied | rejectedStatus
deriving Repr, DecidableEq

/-! Entity records.  Ids are modelled as naturals (the source uses opaque cuid
strings; only equality on them is ever used).  Prices are integers (the source
uses fixed-point decimals; only comparisons on them are ever used). -/

structure Listing where
  id : Nat
  user_id : Nat
  city : String
  county : String
  price : Int
  bedrooms : Nat
  bathrooms : Nat
  square_feet : Option Nat
  property_type : PropertyType
  image_urls : List String
  is_active : Bool
  created_at : Nat
deriving Repr, DecidableEq

structure SavedProperty where
  id : Nat
  user_id : Nat
  listing_id : Nat
  status : PropertyStatus
  notes : Option String
  pros : List String
  cons : List String
  created_at : Nat
deriving Repr, DecidableEq

structure Property where
  id : Nat
  user_id : Nat
  city : String
  county : String
  price : Int
  bedrooms : Nat
  bathrooms : Nat
  property_type : PropertyType
  image_urls : List String
  status : PropertyStatus
  created_at : Nat
deriving Repr, DecidableEq

structure Tag where
  id : Nat
  user_id : Nat
  name : String
  color : Option String
deriving Repr, DecidableEq

structure SavedPropertyTag where
  saved_property_id : Nat
  tag_id : Nat
deriving Repr, DecidableEq

structure Comparison where
  id : Nat
  user_id : Nat
  name : String
  listing_ids : List Nat
deriving Repr, DecidableEq

/-! JavaScript truthiness, used by the spread guards in the where-clause
builders: 0, empty string and undefined are falsy. -/

def truthyNat : Option Nat → Bool
  | none => false
  | some n => n != 0

def truthyInt : Option Int → Bool
  | none => false
  | some n => n != 0

def truthyStr : Option String → Bool
  | none => false
  | some s => s != ""

def jsOrNat : Option Nat → Option Nat → Option Nat
  | some n, b => if n = 0 then b else some n
  | none, b => b

/-! Case-insensitive string equality, modelling Prisma mode insensitive. -/

def eqInsensitive (a b : String) : Bool :=
  a.toLower == b.toLower

/-! Pagination.  ceilNat total limit is Math.ceil(total / limit) for a positive
limit. -/

def ceilNat (total limit : Nat) : Nat :=
  (total + limit - 1) / limit

structure Pagination where
  page : Nat
  limit : Nat
  total : Nat
  totalPages : Nat
deriving Repr, DecidableEq

/-- calculatePagination from src/services/dashboard.service.ts: the totalPages
value is floored at 1 ("Always at least 1 page"). -/
def calculatePagination (total limit page : Nat) : Pagination :=
  let totalPages := ceilNat total limit
  { page := page, limit := limit, total := total
    totalPages := if totalPages = 0 then 1 else totalPages }

/-! State touched by the listing and saved-property services: the Listing and
SavedProperty tables plus the external object store (list of stored public
ids). -/

structure ListingDB where
  listings : List Listing
  savedProps : List SavedProperty
  cloud : List String
deriving Repr, DecidableEq

def findListing (ls : List Listing) (id : Nat) : Option Listing :=
  ls.find? (fun l => l.id == id)

def maxListingId : List Listing → Nat
  | [] => 0
  | l :: ls => max l.id (maxListingId ls)

def freshListingId (ls : List Listing) : Nat :=
  maxListingId ls + 1

def maxSavedId : List SavedProperty → Nat
  | [] => 0
  | sp :: sps => max sp.id (maxSavedId sps)

def freshSavedId (sps : List SavedProperty) : Nat :=
  maxSavedId sps + 1

/-! Sort keys accepted by the public search and saved-property listing. -/

inductive SortKey where
  | price_asc | price_desc | newest
deriving Repr, DecidableEq

def sortListings (key : SortKey) (ls : List Listing) : List Listing :=
  match key with
  | .price_asc => List.insertionSort (fun a b => a.price ≤ b.price) ls
  | .price_desc => List.insertionSort (fun a b => b.price ≤ a.price) ls
  | .newest => List.insertionSort (fun a b => b.created_at ≤ a.created_at) ls

def savedPrice (st : ListingDB) (sp : SavedProperty) : Int :=
  match findListing st.listings sp.listing_id with
  | some l => l.price
  | none => 0

def sortSavedProps (st : ListingDB) (key : SortKey) (sps : List SavedProperty) :
    List SavedProperty :=
  match key with
  | .price_asc => List.insertionSort (fun a b => savedPrice st a ≤ savedPrice st b) sps
  | .price_desc => List.insertionSort (fun a b => savedPrice st b ≤ savedPrice st a) sps
  | .newest => List.insertionSort (fun a b => b.created_at ≤ a.created_at) sps

/-! searchPublicListings, from the listing service.  The filter record mirrors
the accepted query fields; the where-clause spreads use JS truthiness. -/

structure SearchFilter where
  city : Option String
  county : Option String
  minPrice : Option Int
  maxPrice : Option Int
  bedrooms : Option Nat
  property_type : Option PropertyType
deriving Repr, DecidableEq

/-- The where clause built by searchPublicListings: active listings only, with
optional insensitive city and county equality, an EXACT bedrooms match when a
nonzero bedrooms value is supplied, a property-type match, and an inclusive
price range. -/
def searchWhere (filter : SearchFilter) (l : Listing) : Bool :=
  l.is_active
  && (if truthyStr filter.city then eqInsensitive l.city (filter.city.getD "") else true)
  && (if truthyStr filter.county then eqInsensitive l.county (filter.county.getD "") else true)
  && (if truthyNat filter.bedrooms then l.bedrooms == filter.bedrooms.getD 0 else true)
  && (match filter.property_type with
      | some pt => l.property_type == pt
      | none => true)
  && (if truthyInt filter.minPrice || truthyInt filter.maxPrice then
        (if truthyInt filter.minPrice then decide (filter.minPrice.getD 0 ≤ l.price) else true)
        && (if truthyInt filter.maxPrice then decide (l.price ≤ filter.maxPrice.getD 0) else true)
      else true)

structure SearchPage where
  listings : List (Listing × Bool)
  totalCount : Nat
  page : Nat
  limit : Nat
  totalPages : Nat
deriving Repr, DecidableEq

/-- searchPublicListings: filters active listings, sorts, paginates, annotates
each page row with an is_saved flag from a batched saved-property lookup, and
reports totalPages as the plain ceiling with no floor at 1. -/
def searchPublicListings (st : ListingDB) (filter : SearchFilter)
    (userId : Option Nat) (page limit : Nat) (sortBy : SortKey) : SearchPage :=
  let skip := (page - 1) * limit
  let matching := st.listings.filter (searchWhere filter)
  let pageRows := (sortListings sortBy matching).drop skip |>.take limit
  let isSaved := fun (l : Listing) =>
    match userId with
    | some u => st.savedProps.any (fun sp => sp.user_id == u && sp.listing_id == l.id)
    | none => false
  { listings := pageRows.map (fun l => (l, isSaved l))
    totalCount := matching.length
    page := page
    limit := limit
    totalPages := ceilNat matching.length limit }

/-- getListingById: looks the listing up by id AND is_active, so an inactive
listing yields a not-found error. -/
def getListingById (st : ListingDB) (listingId : Nat) : Except Err Listing :=
  match st.listings.find? (fun l => l.id == listingId && l.is_active) with
  | none => Except.error (Err.notFoundError ("Listing not found or is inactive."))
  | some l => Except.ok l

structure MyListingsPage where
  listings : List Listing
  totalCount : Nat
  page : Nat
  limit : Nat
  totalPages : Nat
deriving Repr, DecidableEq

/-- getMyListings: all listings of the user, optionally filtered on is_active,
newest first; totalPages is the plain ceiling with no floor at 1. -/
def getMyListings (st : ListingDB) (userId : Nat) (page limit : Nat)
    (isActive : Option Bool) : MyListingsPage :=
  let skip := (page - 1) * limit
  let matching := st.listings.filter (fun l =>
    l.user_id == userId
    && (match isActive with
        | some b => l.is_active == b
        | none => true))
  let pageRows := (List.insertionSort (fun a b => b.created_at ≤ a.created_at) matching).drop skip
    |>.take limit
  { listings := pageRows
    totalCount := matching.length
    page := page
    limit := limit
    totalPages := ceilNat matching.length limit }

/-- deleteListing: soft delete; after the ownership check the listing row is
updated with is_active set to false. -/
def deleteListing (st : ListingDB) (listingId userId : Nat) :
    ListingDB × Except Err Unit :=
  match findListing st.listings listingId with
  | none => (st, Except.error (Err.notFoundError ("Listing not found.")))
  | some l =>
    if l.user_id != userId then
      (st, Except.error (Err.forbiddenError ("You can only delete listings you have posted.")))
    else
      ({ st with listings := st.listings.map (fun x =>
          if x.id == listingId then { x with is_active := false } else x) },
        Except.ok ())

/-! createListing.  The outcome of each concurrent Cloudinary upload is a
parameter: some result on success, none on failure.  Promise.all starts every
upload, so each successful upload lands in the external store even when a
sibling fails; on any failure the catch block deletes the listing row it just
created and rethrows, without deleting any uploaded object. -/

structure UploadResult where
  public_id : String
  secure_url : String
deriving Repr, DecidableEq

structure ListingData where
  city : String
  county : String
  price : Int
  bedrooms : Nat
  bathrooms : Nat
  square_feet : Option Nat
  property_type : PropertyType
deriving Repr, DecidableEq

def createListing (st : ListingDB) (userId : Nat) (listingData : ListingData)
    (now : Nat) (uploads : List (Option UploadResult)) :
    ListingDB × Except Err Listing :=
  if uploads.length = 0 then
    (st, Except.error (Err.validationError ("At least one image is required for a new listing.")))
  else
    let newId := freshListingId st.listings
    let newListing : Listing :=
      { id := newId, user_id := userId, city := listingData.city
        county := listingData.county, price := listingData.price
        bedrooms := listingData.bedrooms, bathrooms := listingData.bathrooms
        square_feet := listingData.square_feet
        property_type := listingData.property_type
        image_urls := [], is_active := true, created_at := now }
    let created := st.listings ++ [newListing]
    let succeeded := uploads.filterMap id
    let cloudAfter := st.cloud ++ succeeded.map (fun r => r.public_id)
    if uploads.all (fun u => u.isSome) then
      let updated := { newListing with image_urls := succeeded.map (fun r => r.secure_url) }
      ({ st with
          listings := created.map (fun l => if l.id == newId then updated else l),
          cloud := cloudAfter },
        Except.ok updated)
    else
      ({ st with listings := created.filter (fun l => l.id != newId), cloud := cloudAfter },
        Except.error (Err.authError ("Failed to upload image to external service (Cloudinary).")))

/-- saveListing: requires the listing to exist and be active; a duplicate
(user, listing) pair trips the P2002 unique constraint which the service maps
to a validation error. -/
def saveListing (st : ListingDB) (userId listingId : Nat) :
    ListingDB × Except Err SavedProperty :=
  match st.listings.find? (fun l => l.id == listingId && l.is_active) with
  | none => (st, Except.error (Err.notFoundError ("Listing not found or is inactive.")))
  | some _ =>
    if st.savedProps.any (fun sp => sp.user_id == userId && sp.listing_id == listingId) then
      (st, Except.error (Err.validationError ("This listing is already in your saved list.")))
    else
      let sp : SavedProperty :=
        { id := freshSavedId st.savedProps, user_id := userId, listing_id := listingId
          status := PropertyStatus.saved, notes := none, pros := [], cons := []
          created_at := 0 }
      ({ st with savedProps := st.savedProps ++ [sp] }, Except.ok sp)

/-! getSavedProperties, from src/services/savedProperty.service.ts. -/

structure SPFilter where
  status : Option PropertyStatus
  city : Option String
  county : Option String
  minPrice : Option Int
  maxPrice : Option Int
  bedrooms : Option Nat
deriving Repr, DecidableEq

/-- The where clause built by getSavedProperties: rows of the user, optional
status, and conditions on the joined listing — active only, insensitive city
and county equality, an EXACT bedrooms match when a nonzero bedrooms value is
supplied, and an inclusive price range. -/
def savedWhere (st : ListingDB) (userId : Nat) (filter : SPFilter)
    (sp : SavedProperty) : Bool :=
  sp.user_id == userId
  && (match filter.status with
      | some s => sp.status == s
      | none => true)
  && (match findListing st.listings sp.listing_id with
      | none => false
      | some l =>
        l.is_active
        && (if truthyStr filter.city then eqInsensitive l.city (filter.city.getD "") else true)
        && (if truthyStr filter.county then eqInsensitive l.county (filter.county.getD "") else true)
        && (if truthyNat filter.bedrooms then l.bedrooms == filter.bedrooms.getD 0 else true)
        && (if truthyInt filter.minPrice || truthyInt filter.maxPrice then
              (if truthyInt filter.minPrice then decide (filter.minPrice.getD 0 ≤ l.price) else true)
              && (if truthyInt filter.maxPrice then decide (l.price ≤ filter.maxPrice.getD 0) else true)
            else true))

structure SPPage where
  savedProperties : List SavedProperty
  totalCount : Nat
  page : Nat
  limit : Nat
  totalPages : Nat
deriving Repr, DecidableEq

/-- getSavedProperties: filter, sort, paginate; totalPages is the plain ceiling
of totalCount over limit, with no floor at 1. -/
def getSavedProperties (st : ListingDB) (userId : Nat) (filter : SPFilter)
    (page limit : Nat) (sortBy : SortKey) : SPPage :=
  let skip := (page - 1) * limit
  let matching := st.savedProps.filter (savedWhere st userId filter)
  let pageRows := (sortSavedProps st sortBy matching).drop skip |>.take limit
  { savedProperties := pageRows
    totalCount := matching.length
    page := page
    limit := limit
    totalPages := ceilNat matching.length limit }

/-! Dashboard property service, from src/services/dashboard.service.ts.  It
operates on the Property model; its state is the Property table plus the
external object store. -/

structure PropertyDB where
  properties : List Property
  cloud : List String
deriving Repr, DecidableEq

/-- verifyPropertyOwnership: loads the property by id; absent means not-found,
wrong owner means forbidden, otherwise the property is returned.  The source
issues only a findUnique, so the embedding is a pure read of the state. -/
def verifyPropertyOwnership (st : PropertyDB) (id userId : Nat) :
    Except Err Property :=
  match st.properties.find? (fun p => p.id == id) with
  | none =>
    Except.error (Err.notFoundError ("Property with ID " ++ toString id ++ " not found."))
  | some p =>
    if p.user_id != userId then
      Except.error (Err.forbiddenError ("You do not have permission to modify this property."))
    else
      Except.ok p

/-! buildWhereClause, from the same file.  The bedrooms clause takes
min_bedrooms JS-or bedrooms and applies a gte filter; bathrooms uses an
explicit undefined check; the price guard uses truthiness but the bounds use
presence. -/

structure PropertyFilter where
  status : Option PropertyStatus
  city : Option String
  county : Option String
  min_price : Option Int
  max_price : Option Int
  bedrooms : Option Nat
  min_bedrooms : Option Nat
  min_bathrooms : Option Nat
  property_type : List PropertyType
deriving Repr, DecidableEq

/-- Matching semantics of the where clause produced by buildWhereClause. -/
def buildWhereMatches (filter : PropertyFilter) (userId : Option Nat)
    (p : Property) : Bool :=
  (match userId with
   | some u => p.user_id == u
   | none => true)
  && (match filter.status with
      | some s => p.status == s
      | none => true)
  && (if truthyStr filter.city then
        decide ((filter.city.getD "").toLower.toList <:+: p.city.toLower.toList)
      else true)
  && (match filter.county with
      | some c => p.county == c
      | none => true)
  && (if filter.property_type.length > 0 then filter.property_type.contains p.property_type
      else true)
  && (if truthyInt filter.min_price || truthyInt filter.max_price then
        (match filter.min_price with
         | some lo => decide (lo ≤ p.price)
         | none => true)
        && (match filter.max_price with
            | some hi => decide (p.price ≤ hi)
            | none => true)
      else true)
  && (match jsOrNat filter.min_bedrooms filter.bedrooms with
      | some minB => decide (minB ≤ p.bedrooms)
      | none => true)
  && (match filter.min_bathrooms with
      | some minBa => decide (minBa ≤ p.bathrooms)
      | none => true)

/-! addPropertyImages: uploads sequentially, stopping at the first failure; on
any failure after some uploads succeeded, the catch block deletes every object
uploaded in this call from the external store and rethrows. -/

def seqUploads : List (Option UploadResult) → List UploadResult × Bool
  | [] => ([], true)
  | none :: _ => ([], false)
  | some r :: rest =>
    let (rs, allOk) := seqUploads rest
    (r :: rs, allOk)

def addPropertyImages (st : PropertyDB) (propertyId userId : Nat)
    (uploads : List (Option UploadResult)) : PropertyDB × Except Err Property :=
  match verifyPropertyOwnership st propertyId userId with
  | Except.error e => (st, Except.error e)
  | Except.ok property =>
    if property.image_urls.length + uploads.length > 50 then
      (st, Except.error (Err.forbiddenError ("Maximum image limit (50) reached for this property.")))
    else
      let (results, allOk) := seqUploads uploads
      let uploadedIds := results.map (fun r => r.public_id)
      let cloudUp := st.cloud ++ uploadedIds
      if allOk then
        let updated := { property with
          image_urls := property.image_urls ++ results.map (fun r => r.secure_url) }
        ({ st with
            properties := st.properties.map (fun p => if p.id == propertyId then updated else p)
            cloud := cloudUp },
          Except.ok updated)
      else
        ({ st with cloud := cloudUp.filter (fun c => !(uploadedIds.contains c)) },
          Except.error (Err.authError ("Failed to upload image to external service (Cloudinary).")))

/-- reorderPropertyImages: after the ownership check the submission is rejected
when its length differs from the stored array or when some submitted URL is not
among the stored ones (a Set-membership check, blind to duplicates); otherwise
the stored array is replaced by the submitted array verbatim. -/
def reorderPropertyImages (st : PropertyDB) (propertyId userId : Nat)
    (imageUrls : List String) : PropertyDB × Except Err Property :=
  match verifyPropertyOwnership st propertyId userId with
  | Except.error e => (st, Except.error e)
  | Except.ok property =>
    if property.image_urls.length != imageUrls.length then
      (st, Except.error (Err.validationError
        ("The new image array must contain all existing image URLs for reordering.")))
    else if !(imageUrls.all (fun url => property.image_urls.contains url)) then
      (st, Except.error (Err.validationError
        ("One or more URLs in the new order are not valid existing property images.")))
    else
      let updated := { property with image_urls := imageUrls }
      ({ st with
          properties := st.properties.map (fun p => if p.id == propertyId then updated else p) },
        Except.ok updated)

/-! Tag service, from the tag half of src/services/dashboard.service.ts. -/

structure TagDB where
  savedProps : List SavedProperty
  tags : List Tag
  savedPropertyTags : List SavedPropertyTag
deriving Repr, DecidableEq

/-- addTagToSavedProperty: both the SavedProperty and the Tag must exist and be
owned by the caller; a duplicate association trips the unique constraint which
is mapped to a validation error. -/
def addTagToSavedProperty (st : TagDB) (userId savedPropertyId tagId : Nat) :
    TagDB × Except Err SavedPropertyTag :=
  match st.savedProps.find? (fun sp => sp.id == savedPropertyId) with
  | none => (st, Except.error (Err.notFoundError ("Saved property not found or not owned by user.")))
  | some sp =>
    if sp.user_id != userId then
      (st, Except.error (Err.notFoundError ("Saved property not found or not owned by user.")))
    else
      match st.tags.find? (fun t => t.id == tagId) with
      | none => (st, Except.error (Err.notFoundError ("Tag not found or not owned by user.")))
      | some t =>
        if t.user_id != userId then
          (st, Except.error (Err.notFoundError ("Tag not found or not owned by user.")))
        else
          if st.savedPropertyTags.any (fun j =>
              j.saved_property_id == savedPropertyId && j.tag_id == tagId) then
            (st, Except.error (Err.validationError ("This tag is already assigned to this property.")))
          else
            let j : SavedPropertyTag := { saved_property_id := savedPropertyId, tag_id := tagId }
            ({ st with savedPropertyTags := st.savedPropertyTags ++ [j] }, Except.ok j)

/-- removeTagFromSavedProperty: the SavedProperty must exist and be owned by
the caller; then a deleteMany removes the association rows and a zero count is
reported as not-found. -/
def removeTagFromSavedProperty (st : TagDB) (userId savedPropertyId tagId : Nat) :
    TagDB × Except Err Unit :=
  match st.savedProps.find? (fun sp => sp.id == savedPropertyId) with
  | none => (st, Except.error (Err.notFoundError ("Saved property not found or not owned by user.")))
  | some sp =>
    if sp.user_id != userId then
      (st, Except.error (Err.notFoundError ("Saved property not found or not owned by user.")))
    else
      let remaining := st.savedPropertyTags.filter (fun j =>
        !(j.saved_property_id == savedPropertyId && j.tag_id == tagId))
      if st.savedPropertyTags.length - remaining.length = 0 then
        (st, Except.error (Err.notFoundError ("Tag not found on this saved property.")))
      else
        ({ st with savedPropertyTags := remaining }, Except.ok ())

/-! Comparison service, from the comparison service file. -/

structure ComparisonDB where
  listings : List Listing
  comparisons : List Comparison
deriving Repr, DecidableEq

def maxComparisonId : List Comparison → Nat
  | [] => 0
  | c :: cs => max c.id (maxComparisonId cs)

def freshComparisonId (cs : List Comparison) : Nat :=
  maxComparisonId cs + 1

/-- A listing annotated with its computed price per square foot (present when
square_feet is present and positive; exact rational in the model where the
source divides JS numbers). -/
structure DetailedListing where
  listing : Listing
  price_per_sqft : Option ℚ
deriving Repr, DecidableEq

def detailListing (l : Listing) : DetailedListing :=
  { listing := l
    price_per_sqft :=
      match l.square_feet with
      | some sq => if 0 < sq then some ((l.price : ℚ) / (sq : ℚ)) else none
      | none => none }

/-- getDetailedListings: fetches the distinct active listings among the given
ids and rejects the whole batch when the number found differs from the length
of the submitted id list; the survivors are reordered to the input order. -/
def getDetailedListings (st : ComparisonDB) (listingIds : List Nat) :
    Except Err (List DetailedListing) :=
  if listingIds.length = 0 then
    Except.ok []
  else
    let found := st.listings.filter (fun l => listingIds.contains l.id && l.is_active)
    if found.length != listingIds.length then
      Except.error (Err.validationError ("One or more Listing IDs were not found or are inactive."))
    else
      let ordered := listingIds.filterMap (fun id => found.find? (fun l => l.id == id))
      Except.ok (ordered.map detailListing)

/-- createComparison: fewer than two ids is a validation error; then the id
list is validated by getDetailedListings before the row is created. -/
def createComparison (st : ComparisonDB) (userId : Nat) (name : String)
    (listingIds : List Nat) : ComparisonDB × Except Err Comparison :=
  if listingIds.length < 2 then
    (st, Except.error (Err.validationError ("A comparison requires at least two listings.")))
  else
    match getDetailedListings st listingIds with
    | Except.error e => (st, Except.error e)
    | Except.ok _ =>
      let c : Comparison :=
        { id := freshComparisonId st.comparisons, user_id := userId
          name := name, listing_ids := listingIds }
      ({ st with comparisons := st.comparisons ++ [c] }, Except.ok c)

/-- updateComparison: existence and ownership first; a provided id list of
fewer than two entries (an empty array is truthy in JS, hence also checked) is
a validation error; a provided id list is then validated by
getDetailedListings; finally the row is updated with whichever of name and
listing_ids were provided. -/
def updateComparison (st : ComparisonDB) (comparisonId userId : Nat)
    (name : Option String) (listing_ids : Option (List Nat)) :
    ComparisonDB × Except Err Comparison :=
  match st.comparisons.find? (fun c => c.id == comparisonId) with
  | none => (st, Except.error (Err.notFoundError ("Comparison not found.")))
  | some existing =>
    if existing.user_id != userId then
      (st, Except.error (Err.forbiddenError ("You can only update your own comparisons.")))
    else if (match listing_ids with
             | some ids => decide (ids.length < 2)
             | none => false) then
      (st, Except.error (Err.validationError ("A comparison must have at least two listings.")))
    else
      match listing_ids with
      | some ids =>
        match getDetailedListings st ids with
        | Except.error e => (st, Except.error e)
        | Except.ok _ =>
          let updated := { existing with name := name.getD existing.name, listing_ids := ids }
          ({ st with comparisons := st.comparisons.map (fun c =>
              if c.id == comparisonId then updated else c) },
            Except.ok updated)
      | none =>
        let updated := { existing with name := name.getD existing.name }
        ({ st with comparisons := st.comparisons.map (fun c =>
            if c.id == comparisonId then updated else c) },
          Except.ok updated)

/-! Well-formedness of a database state: primary keys are unique. -/

def ComparisonDB.wfListings (st : ComparisonDB) : Prop :=
  (st.listings.map (fun l => l.id)).Nodup

instance (st : ComparisonDB) : Decidable st.wfListings := by
  unfold ComparisonDB.wfListings
  infer_instance

/-! Concrete fixtures used by counterexamples and witnesses. -/

def demoListing3bed : Listing :=
  { id := 1, user_id := 7, city := "Nairobi", county := "Nairobi", price := 100
    bedrooms := 3, bathrooms := 2, square_feet := none
    property_type := PropertyType.apartment, image_urls := ["u1"]
    is_active := true, created_at := 0 }

def demoProperty3bed : Property :=
  { id := 1, user_id := 7, city := "Nairobi", county := "Nairobi", price := 100
    bedrooms := 3, bathrooms := 2, property_type := PropertyType.apartment
    image_urls := [], status := PropertyStatus.saved, created_at := 0 }

def emptySPFilter : SPFilter :=
  { status := none, city := none, county := none, minPrice := none
    maxPrice := none, bedrooms := none }

def bedroomsOnlyPropertyFilter (b : Nat) : PropertyFilter :=
  { status := none, city := none, county := none, min_price := none
    max_price := none, bedrooms := some b, min_bedrooms := none
    min_bathrooms := none, property_type := [] }

def bedroomsOnlySearchFilter (b : Nat) : SearchFilter :=
  { city := none, county := none, minPrice := none, maxPrice := none
    bedrooms := some b, property_type := none }

def bedroomsOnlySPFilter (b : Nat) : SPFilter :=
  { status := none, city := none, county := none, minPrice := none
    maxPrice := none, bedrooms := some b }

/-! Arithmetic helper: the ceiling of zero over any limit is zero. -/

theorem ceilNat_zero (limit : Nat) : ceilNat 0 limit = 0 := by
  unfold ceilNat
  cases limit with
  | zero => rfl
  | succ n =>
    have : 0 + (n + 1) - 1 = n := by omega
    rw [this]
    exact Nat.div_eq_of_lt (Nat.lt_succ_self n)

/-- C1: the claim says every paginated operation reports
totalPages = ceil(totalCount / limit) floored at 1, in particular totalPages 1
when totalCount is 0.  Counterexample: getSavedProperties on an empty database
is a valid call with totalCount 0, yet it reports totalPages 0, not 1 (its
totalPages is a plain ceiling with no floor); getMyListings and
searchPublicListings behave the same way. -/
theorem c1_counterexample :
    (getSavedProperties ⟨[], [], []⟩ 0 emptySPFilter 1 10 SortKey.newest).totalCount = 0
  ∧ (getSavedProperties ⟨[], [], []⟩ 0 emptySPFilter 1 10 SortKey.newest).totalPages ≠ 1
  ∧ (getMyListings ⟨[], [], []⟩ 0 1 10 none).totalPages ≠ 1
  ∧ (searchPublicListings ⟨[], [], []⟩ (bedroomsOnlySearchFilter 0) none 1 20
      SortKey.newest).totalPages ≠ 1 := by
  refine ⟨rfl, ?_, ?_, ?_⟩ <;> decide

/-- C1 amended: only calculatePagination (used by browseAllProperties and
listMyProperties) floors totalPages at 1; getSavedProperties, getMyListings and
searchPublicListings each report the plain ceiling ceil(totalCount / limit), so
with totalCount = 0 they report totalPages 0, not 1. -/
theorem c1_totalPages_amended (total limit page : Nat) :
    (calculatePagination total limit page).totalPages = max 1 (ceilNat total limit)
  ∧ (calculatePagination 0 limit page).totalPages = 1
  ∧ (∀ st userId filter sortBy,
      (getSavedProperties st userId filter page limit sortBy).totalPages
        = ceilNat (getSavedProperties st userId filter page limit sortBy).totalCount limit)
  ∧ (∀ st userId isActive,
      (getMyListings st userId page limit isActive).totalPages
        = ceilNat (getMyListings st userId page limit isActive).totalCount limit)
  ∧ (∀ st filter userId sortBy,
      (searchPublicListings st filter userId page limit sortBy).totalPages
        = ceilNat (searchPublicListings st filter userId page limit sortBy).totalCount limit)
  ∧ (∀ st userId filter sortBy,
      (getSavedProperties st userId filter page limit sortBy).totalCount = 0 →
      (getSavedProperties st userId filter page limit sortBy).totalPages = 0) := by
  refine ⟨?_, ?_, fun st u f sb => rfl, fun st u a => rfl, fun st f u sb => rfl, ?_⟩
  · unfold calculatePagination
    dsimp only
    split <;> omega
  · unfold calculatePagination
    dsimp only
    rw [ceilNat_zero]
    simp
  · intro st u f sb h
    have hp : (getSavedProperties st u f page limit sb).totalPages
        = ceilNat (getSavedProperties st u f page limit sb).totalCount limit := rfl
    rw [hp, h, ceilNat_zero]

/-- C1 witness: the amended statement instantiated at page 1, limit 10 — the
floored calculatePagination value and the unfloored zero totalPages of an
empty getSavedProperties result. -/
theorem c1_totalPages_amended_witness :
    (calculatePagination 0 10 1).totalPages = max 1 (ceilNat 0 10)
  ∧ (getSavedProperties ⟨[], [], []⟩ 0 emptySPFilter 1 10 SortKey.newest).totalPages = 0 :=
  ⟨(c1_totalPages_amended 0 10 1).1,
   (c1_totalPages_amended 0 10 1).2.2.2.2.2 ⟨[], [], []⟩ 0 emptySPFilter SortKey.newest rfl⟩

/-- C2: the claim says every filtering operation that recognizes a bedrooms
field treats it as a minimum.  Counterexample: an active 3-bedroom listing and
a public search for 2 bedrooms — the search predicate does not match it and the
search returns zero results, because searchPublicListings (and likewise
getSavedProperties) uses an exact bedrooms equality. -/
theorem c2_counterexample :
    demoListing3bed.is_active = true
  ∧ demoListing3bed.bedrooms ≥ 2
  ∧ searchWhere (bedroomsOnlySearchFilter 2) demoListing3bed = false
  ∧ (searchPublicListings ⟨[demoListing3bed], [], []⟩ (bedroomsOnlySearchFilter 2)
      none 1 20 SortKey.newest).totalCount = 0 := by
  refine ⟨rfl, ?_, ?_, ?_⟩ <;> decide

/-- C2 amended: only buildWhereClause (dashboard property filtering) treats a
supplied bedrooms value as a minimum (bedrooms greater or equal matches);
searchPublicListings and getSavedProperties treat a supplied nonzero bedrooms
value as an exact equality on the listing. -/
theorem c2_bedrooms_amended (b : Nat) (hb : b ≠ 0) :
    (∀ p : Property,
      buildWhereMatches (bedroomsOnlyPropertyFilter b) none p = decide (b ≤ p.bedrooms))
  ∧ (∀ l : Listing,
      searchWhere (bedroomsOnlySearchFilter b) l = (l.is_active && l.bedrooms == b))
  ∧ (∀ (st : ListingDB) (userId : Nat) (sp : SavedProperty) (l : Listing),
      findListing st.listings sp.listing_id = some l →
      savedWhere st userId (bedroomsOnlySPFilter b) sp
        = (sp.user_id == userId && (l.is_active && l.bedrooms == b))) := by
  refine ⟨?_, ?_, ?_⟩
  · intro p
    simp [buildWhereMatches, bedroomsOnlyPropertyFilter, truthyStr, truthyInt, jsOrNat]
  · intro l
    simp [searchWhere, bedroomsOnlySearchFilter, truthyStr, truthyNat, truthyInt, hb]
  · intro st u sp l hfind
    simp [savedWhere, bedroomsOnlySPFilter, truthyStr, truthyNat, truthyInt, hb, hfind]

/-- C2 witness: the amended statement evaluated at bedrooms filter 2 on the
3-bedroom fixtures. -/
theorem c2_bedrooms_amended_witness :
    buildWhereMatches (bedroomsOnlyPropertyFilter 2) none demoProperty3bed
      = decide ((2 : Nat) ≤ demoProperty3bed.bedrooms)
  ∧ searchWhere (bedroomsOnlySearchFilter 2) demoListing3bed
      = (demoListing3bed.is_active && demoListing3bed.bedrooms == 2) :=
  ⟨(c2_bedrooms_amended 2 (by decide)).1 demoProperty3bed,
   (c2_bedrooms_amended 2 (by decide)).2.1 demoListing3bed⟩

/-! Helper lemmas about search pages and the soft-delete update. -/

theorem searchWhere_active {filter : SearchFilter} {l : Listing}
    (h : searchWhere filter l = true) : l.is_active = true := by
  unfold searchWhere at h
  cases hA : l.is_active
  · rw [hA] at h
    simp at h
  · rfl

theorem mem_search_page {st : ListingDB} {filter : SearchFilter}
    {userId : Option Nat} {page limit : Nat} {sortBy : SortKey} {x : Listing × Bool}
    (hx : x ∈ (searchPublicListings st filter userId page limit sortBy).listings) :
    x.1 ∈ st.listings ∧ searchWhere filter x.1 = true := by
  unfold searchPublicListings at hx
  dsimp only at hx
  obtain ⟨l, hl, rfl⟩ := List.mem_map.mp hx
  have h2 : l ∈ sortListings sortBy (st.listings.filter (searchWhere filter)) :=
    List.mem_of_mem_drop (List.mem_of_mem_take hl)
  have h3 : l ∈ st.listings.filter (searchWhere filter) := by
    cases sortBy <;>
      exact (List.Perm.mem_iff (List.perm_insertionSort _ _)).mp h2
  exact ⟨(List.mem_filter.mp h3).1, (List.mem_filter.mp h3).2⟩

def c3State : ListingDB := ⟨[demoListing3bed], [], []⟩

/-- C3: after a successful soft delete the listing row is stored with
is_active false and is excluded from every public search result, both as the
claim says; but the claim that getListingById still succeeds is false — it is
a counterexample run: soft-deleting the demo listing succeeds, and the
subsequent GET by id returns NotFoundError instead of the listing, because
getListingById looks the row up with an is_active: true condition. -/
theorem c3_counterexample :
    (deleteListing c3State 1 7).2 = Except.ok ()
  ∧ getListingById (deleteListing c3State 1 7).1 1
      = Except.error (Err.notFoundError ("Listing not found or is inactive.")) := by
  constructor <;> rfl

/-- C3 amended: soft-deleting an owned Listing succeeds, stores the row with
is_active false (the row is kept: the table length is unchanged), and the
listing is excluded from every public search result; but a subsequent
getListingById for it fails with NotFoundError (the lookup filters on
is_active: true) instead of returning the listing. -/
theorem c3_soft_delete_amended (st : ListingDB) (listingId userId : Nat)
    (l : Listing) (hfind : findListing st.listings listingId = some l)
    (hown : l.user_id = userId) :
    (deleteListing st listingId userId).2 = Except.ok ()
  ∧ (∀ l1 ∈ (deleteListing st listingId userId).1.listings,
      l1.id = listingId → l1.is_active = false)
  ∧ getListingById (deleteListing st listingId userId).1 listingId
      = Except.error (Err.notFoundError ("Listing not found or is inactive."))
  ∧ (∀ filter u2 page limit sortBy x,
      x ∈ (searchPublicListings (deleteListing st listingId userId).1
            filter u2 page limit sortBy).listings →
      x.1.id ≠ listingId)
  ∧ (deleteListing st listingId userId).1.listings.length = st.listings.length := by
  have hdel : deleteListing st listingId userId
      = ({ st with listings := st.listings.map (fun x =>
            if x.id == listingId then { x with is_active := false } else x) },
         Except.ok ()) := by
    unfold deleteListing
    rw [hfind]
    simp [hown]
  have hkey : ∀ l1 ∈ (deleteListing st listingId userId).1.listings,
      l1.id = listingId → l1.is_active = false := by
    rw [hdel]
    intro l1 h1 hid
    obtain ⟨y, _, rfl⟩ := List.mem_map.mp h1
    by_cases hc : (y.id == listingId) = true
    · rw [if_pos hc]
    · rw [if_neg hc] at hid ⊢
      exact absurd (by exact_mod_cast hid) (by simpa using hc)
  refine ⟨by rw [hdel], hkey, ?_, ?_, by rw [hdel]; exact List.length_map _ _⟩
  · unfold getListingById
    rw [List.find?_eq_none.mpr]
    intro a ha
    have := hkey a ha
    intro hpred
    rw [Bool.and_eq_true] at hpred
    have hid : a.id = listingId := by simpa using hpred.1
    rw [this hid] at hpred
    exact Bool.false_ne_true hpred.2
  · intro filter u2 page limit sortBy x hx hid
    obtain ⟨hmem, hwhere⟩ := mem_search_page hx
    have h1 := hkey x.1 hmem hid
    have h2 := searchWhere_active hwhere
    rw [h1] at h2
    exact Bool.false_ne_true h2

/-- C3 witness: the amended theorem evaluated on the one-listing fixture
database owned by user 7. -/
theorem c3_soft_delete_amended_witness :
    (deleteListing c3State 1 7).2 = Except.ok ()
  ∧ (∀ l1 ∈ (deleteListing c3State 1 7).1.listings,
      l1.id = 1 → l1.is_active = false)
  ∧ getListingById (deleteListing c3State 1 7).1 1
      = Except.error (Err.notFoundError ("Listing not found or is inactive."))
  ∧ (∀ filter u2 page limit sortBy x,
      x ∈ (searchPublicListings (deleteListing c3State 1 7).1
            filter u2 page limit sortBy).listings →
      x.1.id ≠ 1)
  ∧ (deleteListing c3State 1 7).1.listings.length = c3State.listings.length :=
  c3_soft_delete_amended c3State 1 7 demoListing3bed rfl rfl

/-! Helpers about fresh listing ids. -/

theorem le_maxListingId {ls : List Listing} {l : Listing} (h : l ∈ ls) :
    l.id ≤ maxListingId ls := by
  induction ls with
  | nil => cases h
  | cons a as ih =>
    show l.id ≤ max a.id (maxListingId as)
    rcases List.mem_cons.mp h with rfl | h2
    · exact Nat.le_max_left _ _
    · exact Nat.le_trans (ih h2) (Nat.le_max_right _ _)

theorem ne_freshListingId {ls : List Listing} {l : Listing} (h : l ∈ ls) :
    l.id ≠ freshListingId ls :=
  Nat.ne_of_lt (Nat.lt_succ_of_le (le_maxListingId h))

def demoListingData : ListingData :=
  { city := "Nairobi", county := "Nairobi", price := 100, bedrooms := 3
    bathrooms := 2, square_feet := none, property_type := PropertyType.apartment }

def c4uploads : List (Option UploadResult) :=
  [some { public_id := "p1", secure_url := "url1" }, none]

/-- C4: the claim says a failed create deletes every remote object uploaded in
the call.  Counterexample: a two-image create in which the first upload
succeeds and the second fails -- the operation deletes the parent Listing
record and reports the upload error, but the successfully uploaded object p1
is still in the external store after the call. -/
theorem c4_counterexample :
    (createListing ⟨[], [], []⟩ 7 demoListingData 0 c4uploads).2
      = Except.error (Err.authError ("Failed to upload image to external service (Cloudinary)."))
  ∧ (createListing ⟨[], [], []⟩ 7 demoListingData 0 c4uploads).1.listings = []
  ∧ "p1" ∈ (createListing ⟨[], [], []⟩ 7 demoListingData 0 c4uploads).1.cloud := by
  refine ⟨rfl, rfl, ?_⟩
  show "p1" ∈ ["p1"]
  exact List.mem_singleton.mpr rfl

/-- C4 amended: when any upload in a createListing call fails, the operation
deletes the parent Listing record created moments earlier (the Listing table is
exactly as before the call) and reports the triggering error, but it does NOT
delete the remote objects already uploaded in the call: every successful
upload remains in the external store.  (Cleanup of uploaded objects on failure
exists only in addPropertyImages, the add-images path.) -/
theorem c4_create_rollback_amended (st : ListingDB) (userId : Nat)
    (d : ListingData) (now : Nat) (uploads : List (Option UploadResult))
    (hfail : none ∈ uploads) :
    (createListing st userId d now uploads).2
      = Except.error (Err.authError ("Failed to upload image to external service (Cloudinary)."))
  ∧ (createListing st userId d now uploads).1.listings = st.listings
  ∧ (createListing st userId d now uploads).1.savedProps = st.savedProps
  ∧ (createListing st userId d now uploads).1.cloud
      = st.cloud ++ (uploads.filterMap id).map (fun r => r.public_id) := by
  have hne : uploads.length ≠ 0 := by
    intro h0
    rw [List.length_eq_zero.mp h0] at hfail
    cases hfail
  have hall : uploads.all (fun u => u.isSome) = false := by
    cases hv : uploads.all (fun u => u.isSome) with
    | false => rfl
    | true => exact absurd (List.all_eq_true.mp hv none hfail) (by simp)
  have hfilter : ∀ nl : Listing, nl.id = freshListingId st.listings →
      (st.listings ++ [nl]).filter (fun l => l.id != freshListingId st.listings)
        = st.listings := by
    intro nl hid
    rw [List.filter_append]
    have h1 : st.listings.filter (fun l => l.id != freshListingId st.listings)
        = st.listings :=
      List.filter_eq_self.mpr (fun a ha => by simpa using ne_freshListingId ha)
    have h2 : [nl].filter (fun l => l.id != freshListingId st.listings) = [] := by
      simp [hid]
    rw [h1, h2, List.append_nil]
  unfold createListing
  rw [if_neg hne, hall]
  exact ⟨rfl, hfilter _ rfl, rfl, rfl⟩

/-- C4 witness: the amended theorem evaluated on the concrete failing
two-image create. -/
theorem c4_create_rollback_amended_witness :
    (createListing ⟨[], [], []⟩ 7 demoListingData 0 c4uploads).2
      = Except.error (Err.authError ("Failed to upload image to external service (Cloudinary)."))
  ∧ (createListing ⟨[], [], []⟩ 7 demoListingData 0 c4uploads).1.listings
      = ListingDB.listings ⟨[], [], []⟩
  ∧ (createListing ⟨[], [], []⟩ 7 demoListingData 0 c4uploads).1.savedProps
      = ListingDB.savedProps ⟨[], [], []⟩
  ∧ (createListing ⟨[], [], []⟩ 7 demoListingData 0 c4uploads).1.cloud
      = ListingDB.cloud ⟨[], [], []⟩
        ++ (c4uploads.filterMap id).map (fun r => r.public_id) :=
  c4_create_rollback_amended ⟨[], [], []⟩ 7 demoListingData 0 c4uploads (by
    show none ∈ c4uploads
    simp [c4uploads])

/-! C5 fixtures: a property with two stored images. -/

def c5Property : Property :=
  { id := 1, user_id := 7, city := "Nairobi", county := "Nairobi", price := 100
    bedrooms := 2, bathrooms := 1, property_type := PropertyType.apartment
    image_urls := ["a", "b"], status := PropertyStatus.saved, created_at := 0 }

def c5State : PropertyDB := ⟨[c5Property], []⟩

/-- C5: the claim says the stored references after a reorder call are exactly
the stored references before it.  Counterexample: the stored set is [a, b] and
the submission [a, a] — right length, every member currently present, so the
duplicate-blind Set validation accepts it, and the stored array becomes [a, a]:
the reference b has been removed by a reorder call. -/
theorem c5_counterexample :
    (reorderPropertyImages c5State 1 7 ["a", "a"]).2
      = Except.ok { c5Property with image_urls := ["a", "a"] }
  ∧ "b" ∈ c5Property.image_urls
  ∧ (reorderPropertyImages c5State 1 7 ["a", "a"]).1.properties
      = [{ c5Property with image_urls := ["a", "a"] }]
  ∧ "b" ∉ (["a", "a"] : List String) := by
  refine ⟨rfl, ?_, rfl, ?_⟩ <;> decide

/-- C5 amended: a reorder submission is rejected with a validation error when
its size differs from the stored array or when it contains a reference not
currently stored, and rejection leaves the state unchanged; an accepted
submission replaces the stored array with the submitted list verbatim, so no
reference is ever added, and a duplicate-free accepted submission is exactly a
permutation of the stored references — but the validation is blind to
duplicates, so an accepted submission containing a duplicate can drop a stored
reference. -/
theorem c5_reorder_amended (st : PropertyDB) (propertyId userId : Nat)
    (imageUrls : List String) (p : Property)
    (hown : verifyPropertyOwnership st propertyId userId = Except.ok p) :
    (p.image_urls.length ≠ imageUrls.length →
      reorderPropertyImages st propertyId userId imageUrls
        = (st, Except.error (Err.validationError
            ("The new image array must contain all existing image URLs for reordering."))))
  ∧ (p.image_urls.length = imageUrls.length →
      (∃ u ∈ imageUrls, u ∉ p.image_urls) →
      reorderPropertyImages st propertyId userId imageUrls
        = (st, Except.error (Err.validationError
            ("One or more URLs in the new order are not valid existing property images."))))
  ∧ (∀ st1 updated,
      reorderPropertyImages st propertyId userId imageUrls = (st1, Except.ok updated) →
      updated.image_urls = imageUrls
      ∧ (∀ u ∈ imageUrls, u ∈ p.image_urls)
      ∧ (imageUrls.Nodup → imageUrls.Perm p.image_urls)) := by
  refine ⟨?_, ?_, ?_⟩
  · intro h
    unfold reorderPropertyImages
    rw [hown]
    dsimp only
    rw [if_pos (by simpa using h)]
  · intro hlen hex
    have hallf : imageUrls.all (fun url => p.image_urls.contains url) = false := by
      obtain ⟨u, hu, hnot⟩ := hex
      cases hv : imageUrls.all (fun url => p.image_urls.contains url) with
      | false => rfl
      | true => exact absurd (List.all_eq_true.mp hv u hu) (by simpa using hnot)
    unfold reorderPropertyImages
    rw [hown]
    dsimp only
    rw [if_neg (by simp [hlen]), if_pos (by rw [hallf]; rfl)]
  · intro st1 updated h
    unfold reorderPropertyImages at h
    rw [hown] at h
    dsimp only at h
    by_cases h1 : (p.image_urls.length != imageUrls.length) = true
    · rw [if_pos h1] at h
      simp at h
    · rw [if_neg h1] at h
      by_cases h2 : (!(imageUrls.all (fun url => p.image_urls.contains url))) = true
      · rw [if_pos h2] at h
        simp at h
      · rw [if_neg h2] at h
        have hall : imageUrls.all (fun url => p.image_urls.contains url) = true := by
          cases hv : imageUrls.all (fun url => p.image_urls.contains url) with
          | true => rfl
          | false => exact absurd (by rw [hv]; rfl) h2
        have hsub : ∀ u ∈ imageUrls, u ∈ p.image_urls := by
          intro u hu
          simpa using List.all_eq_true.mp hall u hu
        have hlen : p.image_urls.length = imageUrls.length := by
          simpa using h1
        injection h with hA hB
        injection hB with hC
        refine ⟨by rw [← hC], hsub, ?_⟩
        intro hnd
        exact (hnd.subperm (fun u hu => hsub u hu)).perm_of_length_le
          (Nat.le_of_eq hlen)

/-- C5 witness: the amended theorem on the two-image fixture, applied to a
short submission (rejected, state unchanged). -/
theorem c5_reorder_amended_witness :
    reorderPropertyImages c5State 1 7 ["a"]
      = (c5State, Except.error (Err.validationError
          ("The new image array must contain all existing image URLs for reordering."))) :=
  (c5_reorder_amended c5State 1 7 ["a"] c5Property rfl).1 (by decide)

/-! C6 fixtures. -/

def c6SavedProp : SavedProperty :=
  { id := 1, user_id := 5, listing_id := 1, status := PropertyStatus.saved
    notes := none, pros := [], cons := [], created_at := 0 }

/-- C6: saving the same (user, listing) pair a second time fails with a
validation error (the unique-constraint violation is mapped, not leaked and
not a silent no-op), the state is unchanged, and in particular the saved
property count of the user is unchanged by the failed second call. -/
theorem c6_duplicate_save (st st1 : ListingDB) (userId listingId : Nat)
    (sp : SavedProperty)
    (h : saveListing st userId listingId = (st1, Except.ok sp)) :
    saveListing st1 userId listingId
      = (st1, Except.error (Err.validationError ("This listing is already in your saved list.")))
  ∧ ((saveListing st1 userId listingId).1.savedProps.filter
        (fun x => x.user_id == userId)).length
      = (st1.savedProps.filter (fun x => x.user_id == userId)).length := by
  unfold saveListing at h
  cases hf : st.listings.find? (fun l => l.id == listingId && l.is_active) with
  | none =>
    rw [hf] at h
    simp at h
  | some l =>
    rw [hf] at h
    dsimp only at h
    by_cases hdup : (st.savedProps.any (fun x =>
        x.user_id == userId && x.listing_id == listingId)) = true
    · rw [if_pos hdup] at h
      simp at h
    · rw [if_neg hdup] at h
      injection h with hA hB
      have hlist : st1.listings = st.listings := by rw [← hA]
      have hsp : st1.savedProps = st.savedProps ++
          [{ id := freshSavedId st.savedProps, user_id := userId, listing_id := listingId
             status := PropertyStatus.saved, notes := none, pros := [], cons := []
             created_at := 0 }] := by rw [← hA]
      have hsecond : saveListing st1 userId listingId
          = (st1, Except.error (Err.validationError
              ("This listing is already in your saved list."))) := by
        unfold saveListing
        rw [hlist, hf]
        dsimp only
        rw [if_pos ?_]
        refine List.any_eq_true.mpr ?_
        refine ⟨{ id := freshSavedId st.savedProps, user_id := userId
                  listing_id := listingId, status := PropertyStatus.saved
                  notes := none, pros := [], cons := [], created_at := 0 }, ?_, by simp⟩
        rw [hsp]
        exact List.mem_append_right _ (List.mem_singleton.mpr rfl)
      exact ⟨hsecond, by rw [hsecond]⟩

/-- C6 witness: user 5 has already saved listing 1; the second save fails with
the validation error and the saved-property count is unchanged. -/
theorem c6_duplicate_save_witness :
    saveListing ⟨[demoListing3bed], [c6SavedProp], []⟩ 5 1
      = (⟨[demoListing3bed], [c6SavedProp], []⟩,
         Except.error (Err.validationError ("This listing is already in your saved list.")))
  ∧ ((saveListing ⟨[demoListing3bed], [c6SavedProp], []⟩ 5 1).1.savedProps.filter
        (fun x => x.user_id == 5)).length
      = ((⟨[demoListing3bed], [c6SavedProp], []⟩ : ListingDB).savedProps.filter
          (fun x => x.user_id == 5)).length :=
  c6_duplicate_save c3State ⟨[demoListing3bed], [c6SavedProp], []⟩ 5 1 c6SavedProp rfl

/-- C7: createComparison rejects fewer than two ids with a validation error
and leaves the state unchanged; updateComparison rejects a provided id list of
fewer than two entries with a validation error, leaving the stored membership
unchanged; and both operations preserve the invariant that every stored
comparison has at least two listing ids. -/
theorem c7_comparison_min_two :
    (∀ (st : ComparisonDB) (userId : Nat) (name : String) (ids : List Nat),
      ids.length < 2 →
      createComparison st userId name ids
        = (st, Except.error (Err.validationError ("A comparison requires at least two listings."))))
  ∧ (∀ (st : ComparisonDB) (comparisonId userId : Nat) (name : Option String)
       (ids : List Nat) (c : Comparison),
      st.comparisons.find? (fun x => x.id == comparisonId) = some c →
      c.user_id = userId →
      ids.length < 2 →
      updateComparison st comparisonId userId name (some ids)
        = (st, Except.error (Err.validationError ("A comparison must have at least two listings.")))) 
  ∧ (∀ (st : ComparisonDB) (userId : Nat) (name : String) (ids : List Nat),
      (∀ c ∈ st.comparisons, 2 ≤ c.listing_ids.length) →
      ∀ c1 ∈ (createComparison st userId name ids).1.comparisons,
        2 ≤ c1.listing_ids.length)
  ∧ (∀ (st : ComparisonDB) (comparisonId userId : Nat) (name : Option String)
       (olids : Option (List Nat)),
      (∀ c ∈ st.comparisons, 2 ≤ c.listing_ids.length) →
      ∀ c1 ∈ (updateComparison st comparisonId userId name olids).1.comparisons,
        2 ≤ c1.listing_ids.length) := by
  refine ⟨?_, ?_, ?_, ?_⟩
  · intro st u nm ids h
    unfold createComparison
    rw [if_pos h]
  · intro st cid u nm ids c hfind hown hlt
    unfold updateComparison
    rw [hfind]
    dsimp only
    rw [if_neg (by simp [hown]), if_pos (by simpa using hlt)]
  · intro st u nm ids hinv c1 hc1
    unfold createComparison at hc1
    by_cases hlen : ids.length < 2
    · rw [if_pos hlen] at hc1
      exact hinv c1 hc1
    · rw [if_neg hlen] at hc1
      cases hg : getDetailedListings st ids with
      | error e =>
        rw [hg] at hc1
        exact hinv c1 hc1
      | ok xs =>
        rw [hg] at hc1
        dsimp only at hc1
        rcases List.mem_append.mp hc1 with hmem | hmem
        · exact hinv c1 hmem
        · rw [List.mem_singleton.mp hmem]
          dsimp only
          omega
  · intro st cid u nm olids hinv c1 hc1
    unfold updateComparison at hc1
    cases hfind : st.comparisons.find? (fun x => x.id == cid) with
    | none =>
      rw [hfind] at hc1
      exact hinv c1 hc1
    | some existing =>
      have hexmem : existing ∈ st.comparisons := List.mem_of_find?_eq_some hfind
      rw [hfind] at hc1
      dsimp only at hc1
      by_cases howner : (existing.user_id != u) = true
      · rw [if_pos howner] at hc1
        exact hinv c1 hc1
      · rw [if_neg howner] at hc1
        cases olids with
        | none =>
          rw [if_neg (by simp)] at hc1
          dsimp only at hc1
          obtain ⟨y, hy, hyeq⟩ := List.mem_map.mp hc1
          by_cases hyid : (y.id == cid) = true
          · rw [if_pos hyid] at hyeq
            rw [← hyeq]
            exact hinv existing hexmem
          · rw [if_neg hyid] at hyeq
            rw [← hyeq]
            exact hinv y hy
        | some ids =>
          by_cases hlt : ids.length < 2
          · rw [if_pos (by simpa using hlt)] at hc1
            exact hinv c1 hc1
          · rw [if_neg (by simpa using hlt)] at hc1
            dsimp only at hc1
            cases hg : getDetailedListings st ids with
            | error e =>
              rw [hg] at hc1
              exact hinv c1 hc1
            | ok xs =>
              rw [hg] at hc1
              dsimp only at hc1
              obtain ⟨y, hy, hyeq⟩ := List.mem_map.mp hc1
              by_cases hyid : (y.id == cid) = true
              · rw [if_pos hyid] at hyeq
                rw [← hyeq]
                dsimp only
                omega
              · rw [if_neg hyid] at hyeq
                rw [← hyeq]
                exact hinv y hy

/-- C7 witness: the rejection branches and the invariant at concrete inputs — a
one-element create is rejected, and an update dropping the stored two-listing
comparison to one id is rejected, leaving the state unchanged. -/
theorem c7_comparison_min_two_witness :
    createComparison ⟨[], []⟩ 5 "mine" [7]
      = (⟨[], []⟩, Except.error (Err.validationError ("A comparison requires at least two listings."))) 
  ∧ updateComparison ⟨[], [⟨1, 5, "mine", [7, 8]⟩]⟩ 1 5 none (some [7])
      = (⟨[], [⟨1, 5, "mine", [7, 8]⟩]⟩,
         Except.error (Err.validationError ("A comparison must have at least two listings."))) :=
  ⟨c7_comparison_min_two.1 ⟨[], []⟩ 5 "mine" [7] (by decide),
   c7_comparison_min_two.2.1 ⟨[], [⟨1, 5, "mine", [7, 8]⟩]⟩ 1 5 none [7]
     ⟨1, 5, "mine", [7, 8]⟩ rfl rfl (by decide)⟩

/-- C8: the ownership guard returns NotFoundError when no property with the
id exists, ForbiddenError when it exists but is owned by someone else, and the
property itself otherwise; it is a pure read of the state (its type performs
no state update, mirroring that the source issues only a findUnique). -/
theorem c8_ownership_guard (st : PropertyDB) (id userId : Nat) :
    (st.properties.find? (fun p => p.id == id) = none →
      verifyPropertyOwnership st id userId
        = Except.error (Err.notFoundError ("Property with ID " ++ toString id ++ " not found.")))
  ∧ (∀ p, st.properties.find? (fun p => p.id == id) = some p → p.user_id ≠ userId →
      verifyPropertyOwnership st id userId
        = Except.error (Err.forbiddenError ("You do not have permission to modify this property.")))
  ∧ (∀ p, st.properties.find? (fun p => p.id == id) = some p → p.user_id = userId →
      verifyPropertyOwnership st id userId = Except.ok p) := by
  refine ⟨?_, ?_, ?_⟩
  · intro h
    unfold verifyPropertyOwnership
    rw [h]
  · intro p hf hne
    unfold verifyPropertyOwnership
    rw [hf]
    dsimp only
    rw [if_pos (by simpa using hne)]
  · intro p hf he
    unfold verifyPropertyOwnership
    rw [hf]
    dsimp only
    rw [if_neg (by simp [he])]

/-- C8 witness: the three cases at concrete states — missing property, wrong
owner, and right owner. -/
theorem c8_ownership_guard_witness :
    verifyPropertyOwnership ⟨[], []⟩ 1 7
      = Except.error (Err.notFoundError ("Property with ID " ++ toString 1 ++ " not found."))
  ∧ verifyPropertyOwnership c5State 1 9
      = Except.error (Err.forbiddenError ("You do not have permission to modify this property."))
  ∧ verifyPropertyOwnership c5State 1 7 = Except.ok c5Property :=
  ⟨(c8_ownership_guard ⟨[], []⟩ 1 7).1 rfl,
   (c8_ownership_guard c5State 1 9).2.1 c5Property rfl (by decide),
   (c8_ownership_guard c5State 1 7).2.2 c5Property rfl rfl⟩

/-! C9.  The reachable-state invariant for tag associations: every association
row joins a SavedProperty and a Tag of the same owner (addTagToSavedProperty
only ever creates such rows). -/

def TagDB.assocConsistent (st : TagDB) : Prop :=
  ∀ j ∈ st.savedPropertyTags,
    ∀ sp ∈ st.savedProps, sp.id = j.saved_property_id →
      ∀ t ∈ st.tags, t.id = j.tag_id → t.user_id = sp.user_id

instance (st : TagDB) : Decidable st.assocConsistent := by
  unfold TagDB.assocConsistent
  infer_instance

theorem removeTag_no_pair (st : TagDB) (userId spId tId : Nat) (sp : SavedProperty)
    (hfind : st.savedProps.find? (fun x => x.id == spId) = some sp)
    (hown : sp.user_id = userId)
    (hnone : ∀ j ∈ st.savedPropertyTags, ¬(j.saved_property_id = spId ∧ j.tag_id = tId)) :
    removeTagFromSavedProperty st userId spId tId
      = (st, Except.error (Err.notFoundError ("Tag not found on this saved property."))) := by
  unfold removeTagFromSavedProperty
  rw [hfind]
  dsimp only
  rw [if_neg (by simp [hown])]
  have hfull : st.savedPropertyTags.filter (fun j =>
      !(j.saved_property_id == spId && j.tag_id == tId)) = st.savedPropertyTags :=
    List.filter_eq_self.mpr (fun j hj => by simpa using not_and_or.mp (hnone j hj))
  rw [if_pos (by rw [hfull]; exact Nat.sub_self _)]

/-- C9: adding a tag to a saved property fails with not-found unless both the
SavedProperty and the Tag exist and are owned by the caller; removing fails
with not-found unless the SavedProperty exists and is owned by the caller;
removing a tag that is not associated with the saved property — in particular,
on any association-consistent state, a tag owned by another user — reports
not-found rather than succeeding silently; every failure leaves the state
unchanged. -/
theorem c9_tag_ownership :
    (∀ (st : TagDB) (u spId tId : Nat),
      st.savedProps.find? (fun x => x.id == spId) = none →
      addTagToSavedProperty st u spId tId
        = (st, Except.error (Err.notFoundError ("Saved property not found or not owned by user."))))
  ∧ (∀ (st : TagDB) (u spId tId : Nat) (sp : SavedProperty),
      st.savedProps.find? (fun x => x.id == spId) = some sp → sp.user_id ≠ u →
      addTagToSavedProperty st u spId tId
        = (st, Except.error (Err.notFoundError ("Saved property not found or not owned by user."))))
  ∧ (∀ (st : TagDB) (u spId tId : Nat) (sp : SavedProperty),
      st.savedProps.find? (fun x => x.id == spId) = some sp → sp.user_id = u →
      st.tags.find? (fun t => t.id == tId) = none →
      addTagToSavedProperty st u spId tId
        = (st, Except.error (Err.notFoundError ("Tag not found or not owned by user."))))
  ∧ (∀ (st : TagDB) (u spId tId : Nat) (sp : SavedProperty) (t : Tag),
      st.savedProps.find? (fun x => x.id == spId) = some sp → sp.user_id = u →
      st.tags.find? (fun x => x.id == tId) = some t → t.user_id ≠ u →
      addTagToSavedProperty st u spId tId
        = (st, Except.error (Err.notFoundError ("Tag not found or not owned by user."))))
  ∧ (∀ (st : TagDB) (u spId tId : Nat),
      st.savedProps.find? (fun x => x.id == spId) = none →
      removeTagFromSavedProperty st u spId tId
        = (st, Except.error (Err.notFoundError ("Saved property not found or not owned by user."))))
  ∧ (∀ (st : TagDB) (u spId tId : Nat) (sp : SavedProperty),
      st.savedProps.find? (fun x => x.id == spId) = some sp → sp.user_id ≠ u →
      removeTagFromSavedProperty st u spId tId
        = (st, Except.error (Err.notFoundError ("Saved property not found or not owned by user."))))
  ∧ (∀ (st : TagDB) (u spId tId : Nat) (sp : SavedProperty),
      st.savedProps.find? (fun x => x.id == spId) = some sp → sp.user_id = u →
      (∀ j ∈ st.savedPropertyTags, ¬(j.saved_property_id = spId ∧ j.tag_id = tId)) →
      removeTagFromSavedProperty st u spId tId
        = (st, Except.error (Err.notFoundError ("Tag not found on this saved property."))))
  ∧ (∀ (st : TagDB) (u spId tId : Nat) (sp : SavedProperty) (t : Tag),
      st.assocConsistent →
      st.savedProps.find? (fun x => x.id == spId) = some sp → sp.user_id = u →
      st.tags.find? (fun x => x.id == tId) = some t → t.user_id ≠ u →
      removeTagFromSavedProperty st u spId tId
        = (st, Except.error (Err.notFoundError ("Tag not found on this saved property.")))) := by
  refine ⟨?_, ?_, ?_, ?_, ?_, ?_, ?_, ?_⟩
  · intro st u spId tId h
    unfold addTagToSavedProperty
    rw [h]
  · intro st u spId tId sp hf hne
    unfold addTagToSavedProperty
    rw [hf]
    dsimp only
    rw [if_pos (by simpa using hne)]
  · intro st u spId tId sp hf he ht
    unfold addTagToSavedProperty
    rw [hf]
    dsimp only
    rw [if_neg (by simp [he]), ht]
  · intro st u spId tId sp t hf he ht htne
    unfold addTagToSavedProperty
    rw [hf]
    dsimp only
    rw [if_neg (by simp [he]), ht]
    dsimp only
    rw [if_pos (by simpa using htne)]
  · intro st u spId tId h
    unfold removeTagFromSavedProperty
    rw [h]
  · intro st u spId tId sp hf hne
    unfold removeTagFromSavedProperty
    rw [hf]
    dsimp only
    rw [if_pos (by simpa using hne)]
  · intro st u spId tId sp hf he hnone
    exact removeTag_no_pair st u spId tId sp hf he hnone
  · intro st u spId tId sp t hconsist hf he ht htne
    refine removeTag_no_pair st u spId tId sp hf he ?_
    intro j hj ⟨hj1, hj2⟩
    have hspmem : sp ∈ st.savedProps := List.mem_of_find?_eq_some hf
    have hspid : sp.id = spId := by simpa using List.find?_some hf
    have htmem : t ∈ st.tags := List.mem_of_find?_eq_some ht
    have htid : t.id = tId := by simpa using List.find?_some ht
    have := hconsist j hj sp hspmem (by rw [hspid, hj1]) t htmem (by rw [htid, hj2])
    rw [he] at this
    exact htne this

/-- C9 witness: concrete instantiations of the failure branches — missing
saved property on add, foreign tag on add, and removal of a never-associated
(foreign-owned) tag on an association-consistent state. -/
theorem c9_tag_ownership_witness :
    addTagToSavedProperty ⟨[], [], []⟩ 5 1 1
      = (⟨[], [], []⟩, Except.error (Err.notFoundError ("Saved property not found or not owned by user.")))
  ∧ addTagToSavedProperty ⟨[c6SavedProp], [⟨1, 9, "Favorite", none⟩], []⟩ 5 1 1
      = (⟨[c6SavedProp], [⟨1, 9, "Favorite", none⟩], []⟩,
         Except.error (Err.notFoundError ("Tag not found or not owned by user.")))
  ∧ removeTagFromSavedProperty ⟨[c6SavedProp], [⟨1, 9, "Favorite", none⟩], []⟩ 5 1 1
      = (⟨[c6SavedProp], [⟨1, 9, "Favorite", none⟩], []⟩,
         Except.error (Err.notFoundError ("Tag not found on this saved property.")))
  ∧ removeTagFromSavedProperty ⟨[c6SavedProp], [⟨1, 5, "Favorite", none⟩], []⟩ 5 1 2
      = (⟨[c6SavedProp], [⟨1, 5, "Favorite", none⟩], []⟩,
         Except.error (Err.notFoundError ("Tag not found on this saved property.")))  :=
  ⟨c9_tag_ownership.1 ⟨[], [], []⟩ 5 1 1 rfl,
   c9_tag_ownership.2.2.2.1 ⟨[c6SavedProp], [⟨1, 9, "Favorite", none⟩], []⟩ 5 1 1
     c6SavedProp ⟨1, 9, "Favorite", none⟩ rfl rfl rfl (by decide),
   c9_tag_ownership.2.2.2.2.2.2.2 ⟨[c6SavedProp], [⟨1, 9, "Favorite", none⟩], []⟩ 5 1 1
     c6SavedProp ⟨1, 9, "Favorite", none⟩ (by decide) rfl rfl rfl (by decide),
   c9_tag_ownership.2.2.2.2.2.2.1 ⟨[c6SavedProp], [⟨1, 5, "Favorite", none⟩], []⟩ 5 1 2
     c6SavedProp rfl rfl (by decide)⟩

/-! C10 helper lemmas: a list with a duplicate has length at least two and a
strictly shorter dedup; a well-formed listing table yields at most dedup-many
distinct rows for a given id list. -/

theorem two_le_length_of_not_nodup {α : Type} {l : List α} (h : ¬ l.Nodup) :
    2 ≤ l.length := by
  match l with
  | [] => exact absurd List.nodup_nil h
  | [a] => exact absurd (List.nodup_singleton a) h
  | a :: b :: t =>
    simp only [List.length_cons]
    omega

theorem dedup_length_lt {α : Type} [DecidableEq α] {l : List α} (h : ¬ l.Nodup) :
    l.dedup.length < l.length := by
  have hsub : List.Sublist l.dedup l := List.dedup_sublist l
  have hle := hsub.length_le
  rcases Nat.lt_or_ge l.dedup.length l.length with hlt | hge
  · exact hlt
  · exact absurd (List.dedup_eq_self.mp (hsub.eq_of_length (Nat.le_antisymm hle hge))) h

theorem found_length_le (st : ComparisonDB) (ids : List Nat) (hwf : st.wfListings) :
    (st.listings.filter (fun l => ids.contains l.id && l.is_active)).length
      ≤ ids.dedup.length := by
  have hsub : List.Sublist (st.listings.filter (fun l => ids.contains l.id && l.is_active))
      st.listings := List.filter_sublist _
  have hmapsub : List.Sublist
      ((st.listings.filter (fun l => ids.contains l.id && l.is_active)).map (fun l => l.id))
      (st.listings.map (fun l => l.id)) := hsub.map _
  have hnodup : ((st.listings.filter (fun l => ids.contains l.id && l.is_active)).map
      (fun l => l.id)).Nodup := List.Nodup.sublist hmapsub hwf
  have hsubset : (st.listings.filter (fun l => ids.contains l.id && l.is_active)).map
      (fun l => l.id) ⊆ ids.dedup := by
    intro x hx
    obtain ⟨l, hl, rfl⟩ := List.mem_map.mp hx
    have hcond := (List.mem_filter.mp hl).2
    rw [Bool.and_eq_true] at hcond
    exact List.mem_dedup.mpr (by simpa using hcond.1)
  have := (hnodup.subperm hsubset).length_le
  simpa using this

theorem getDetailedListings_dup (st : ComparisonDB) (ids : List Nat)
    (hwf : st.wfListings) (hdup : ¬ ids.Nodup) :
    getDetailedListings st ids
      = Except.error (Err.validationError
          ("One or more Listing IDs were not found or are inactive.")) := by
  have hlen2 := two_le_length_of_not_nodup hdup
  have hne : (st.listings.filter (fun l => ids.contains l.id && l.is_active)).length
      ≠ ids.length := by
    have h1 := found_length_le st ids hwf
    have h2 := dedup_length_lt hdup
    omega
  unfold getDetailedListings
  rw [if_neg (by omega)]
  dsimp only
  rw [if_pos (by simpa using hne)]

theorem getDetailedListings_ok_nodup {st : ComparisonDB} {ids : List Nat}
    {xs : List DetailedListing} (hwf : st.wfListings)
    (h : getDetailedListings st ids = Except.ok xs) : ids.Nodup := by
  by_cases hdup : ids.Nodup
  · exact hdup
  · rw [getDetailedListings_dup st ids hwf hdup] at h
    exact absurd h (by simp)

/-- C10: a createComparison or updateComparison membership list containing a
duplicate listing id is always rejected with the validation error of the
membership check (the count of distinct active listings found can never reach
the length of a duplicate-containing list), the state is left unchanged, and
consequently both operations preserve the invariant that no stored comparison
contains a duplicate listing id. -/
theorem c10_duplicate_ids :
    (∀ (st : ComparisonDB) (userId : Nat) (name : String) (ids : List Nat),
      st.wfListings → ¬ ids.Nodup →
      createComparison st userId name ids
        = (st, Except.error (Err.validationError
            ("One or more Listing IDs were not found or are inactive."))))
  ∧ (∀ (st : ComparisonDB) (comparisonId userId : Nat) (name : Option String)
       (ids : List Nat) (c : Comparison),
      st.wfListings →
      st.comparisons.find? (fun x => x.id == comparisonId) = some c →
      c.user_id = userId → ¬ ids.Nodup →
      updateComparison st comparisonId userId name (some ids)
        = (st, Except.error (Err.validationError
            ("One or more Listing IDs were not found or are inactive."))))
  ∧ (∀ (st : ComparisonDB) (userId : Nat) (name : String) (ids : List Nat),
      st.wfListings → (∀ c ∈ st.comparisons, c.listing_ids.Nodup) →
      ∀ c1 ∈ (createComparison st userId name ids).1.comparisons,
        c1.listing_ids.Nodup)
  ∧ (∀ (st : ComparisonDB) (comparisonId userId : Nat) (name : Option String)
       (olids : Option (List Nat)),
      st.wfListings → (∀ c ∈ st.comparisons, c.listing_ids.Nodup) →
      ∀ c1 ∈ (updateComparison st comparisonId userId name olids).1.comparisons,
        c1.listing_ids.Nodup) := by
  refine ⟨?_, ?_, ?_, ?_⟩
  · intro st u nm ids hwf hdup
    have hlen2 := two_le_length_of_not_nodup hdup
    unfold createComparison
    rw [if_neg (by omega), getDetailedListings_dup st ids hwf hdup]
  · intro st cid u nm ids c hwf hfind hown hdup
    have hlen2 := two_le_length_of_not_nodup hdup
    unfold updateComparison
    rw [hfind]
    dsimp only
    rw [if_neg (by simp [hown]), if_neg (by simp; omega)]
    rw [getDetailedListings_dup st ids hwf hdup]
  · intro st u nm ids hwf hinv c1 hc1
    unfold createComparison at hc1
    by_cases hlen : ids.length < 2
    · rw [if_pos hlen] at hc1
      exact hinv c1 hc1
    · rw [if_neg hlen] at hc1
      cases hg : getDetailedListings st ids with
      | error e =>
        rw [hg] at hc1
        exact hinv c1 hc1
      | ok xs =>
        rw [hg] at hc1
        dsimp only at hc1
        rcases List.mem_append.mp hc1 with hmem | hmem
        · exact hinv c1 hmem
        · rw [List.mem_singleton.mp hmem]
          exact getDetailedListings_ok_nodup hwf hg
  · intro st cid u nm olids hwf hinv c1 hc1
    unfold updateComparison at hc1
    cases hfind : st.comparisons.find? (fun x => x.id == cid) with
    | none =>
      rw [hfind] at hc1
      exact hinv c1 hc1
    | some existing =>
      have hexmem : existing ∈ st.comparisons := List.mem_of_find?_eq_some hfind
      rw [hfind] at hc1
      dsimp only at hc1
      by_cases howner : (existing.user_id != u) = true
      · rw [if_pos howner] at hc1
        exact hinv c1 hc1
      · rw [if_neg howner] at hc1
        cases olids with
        | none =>
          rw [if_neg (by simp)] at hc1
          dsimp only at hc1
          obtain ⟨y, hy, hyeq⟩ := List.mem_map.mp hc1
          by_cases hyid : (y.id == cid) = true
          · rw [if_pos hyid] at hyeq
            rw [← hyeq]
            exact hinv existing hexmem
          · rw [if_neg hyid] at hyeq
            rw [← hyeq]
            exact hinv y hy
        | some ids =>
          by_cases hlt : ids.length < 2
          · rw [if_pos (by simpa using hlt)] at hc1
            exact hinv c1 hc1
          · rw [if_neg (by simpa using hlt)] at hc1
            dsimp only at hc1
            cases hg : getDetailedListings st ids with
            | error e =>
              rw [hg] at hc1
              exact hinv c1 hc1
            | ok xs =>
              rw [hg] at hc1
              dsimp only at hc1
              obtain ⟨y, hy, hyeq⟩ := List.mem_map.mp hc1
              by_cases hyid : (y.id == cid) = true
              · rw [if_pos hyid] at hyeq
                rw [← hyeq]
                exact getDetailedListings_ok_nodup hwf hg
              · rw [if_neg hyid] at hyeq
                rw [← hyeq]
                exact hinv y hy

/-- C10 witness: a duplicate pair of the one active listing id is rejected on
create, and on update of a stored comparison. -/
theorem c10_duplicate_ids_witness :
    createComparison ⟨[demoListing3bed], []⟩ 5 "dup" [1, 1]
      = (⟨[demoListing3bed], []⟩, Except.error (Err.validationError
          ("One or more Listing IDs were not found or are inactive.")))
  ∧ updateComparison ⟨[demoListing3bed], [⟨1, 5, "mine", [1, 2]⟩]⟩ 1 5 none (some [1, 1])
      = (⟨[demoListing3bed], [⟨1, 5, "mine", [1, 2]⟩]⟩, Except.error (Err.validationError
          ("One or more Listing IDs were not found or are inactive.")))  :=
  ⟨c10_duplicate_ids.1 ⟨[demoListing3bed], []⟩ 5 "dup" [1, 1] (by decide) (by decide),
   c10_duplicate_ids.2.1 ⟨[demoListing3bed], [⟨1, 5, "mine", [1, 2]⟩]⟩ 1 5 none [1, 1]
     ⟨1, 5, "mine", [1, 2]⟩ (by decide) rfl rfl (by decide)⟩

end ApartmentHunter
